import Mathlib

/-!
Shallow embedding of the node-view lifecycle manager in
`src/packages/core/src/NodeView.ts` (the `NodeView` class), together with the
Instance Cache and editor subscription mechanism it relies on (implemented
outside the sources under verification; modelled from the spec where noted).

JS object references are represented by `Nat` identifiers: two references are
identical (`===`) iff their identifiers are equal.  DOM elements are likewise
`Nat` handles, with the relations the code consults (`contains`, `tagName`,
`isContentEditable`, `closest('[data-drag-handle]')`) supplied as an explicit
environment.
-/

namespace TiptapNodeView

/-- A DOM element handle. -/
abbrev Elem := Nat

/-- A ProseMirror document node, as seen by `NodeView.ts`.  `id` stands for
the JS object reference (`===` is `id` equality).  `draggable` is
`node.type.spec.draggable`, `selectable` is `NodeSelection.isSelectable(node)`,
`attrs` is `node.attrs` as an association list. -/
structure PMNode where
  id : Nat
  attrs : List (String × String)
  isLeaf : Bool
  draggable : Bool
  selectable : Bool
deriving DecidableEq, Repr

/-- A position-remapping function: `map.map(pos, bias)` of one entry of
`transaction.mapping.maps`. -/
def RemapFn := Nat → Int → Nat

/-- The part of a ProseMirror `Transaction` that `onBeforeUpdateState` reads:
`docChanged`, the ordered `mapping.maps`, `doc.nodeAt` and
`getMeta('uiEvent')`. -/
structure Transaction where
  docChanged : Bool
  maps : List RemapFn
  doc : Nat → Option PMNode
  uiEvent : Option String

/-- A DOM event as `stopEvent` reads it: its `type` string and its target
element. -/
structure Event where
  etype : String
  target : Elem

/-- The `NodeViewRendererOptions` record of recognized options, each field
`null` (`none`) by default. -/
structure NodeViewRendererOptions where
  stopEvent : Option (Event → Bool)
  update : Option (PMNode → List Nat → Bool)

/-- The mutable fields of one `NodeView` instance.  `instId` is the JS object
reference of the instance itself.  `getPos` is an opaque handle to the
position-resolver closure (resolved through an environment `resolve`).
`isSame` is declared `isSame!: boolean` and never assigned before the first
document-changing transaction, so it starts out `undefined`: we model the
field as `Option Bool` with `none` for `undefined` (both are falsy).
`cache` is the id of this instance's `NodeViewCacheItem`; the constructor
assigns it before the instance becomes reachable, so it is a plain `Nat`. -/
structure Instance where
  instId : Nat
  component : Nat
  extension : Nat
  node : PMNode
  decorations : List Nat
  getPos : Nat
  isDragging : Bool
  options : NodeViewRendererOptions
  position : Nat
  isSame : Option Bool
  cache : Nat

/-- Truthiness of the `isSame` field: `undefined` (`none`) and `false` are
falsy, only `true` is truthy. -/
def isSameTruthy : Option Bool → Bool
  | some true => true
  | _ => false

/-- The handler `onBeforeUpdateState` (`NodeView.ts` lines 72–105): skip transactions with
`docChanged` false; otherwise fold the stored position through every map with
bias `-1`, look up the node at the new position, and store whether it is still
the same node (reference-identical and the transaction is not tagged
`uiEvent: 'paste'` or `'drop'`). -/
def onBeforeUpdateState (inst : Instance) (tx : Transaction) : Instance :=
  if !tx.docChanged then
    inst
  else
    let newPosition := tx.maps.foldl (fun p m => m p (-1)) inst.position
    let newNode := tx.doc newPosition
    let isSame :=
      (match newNode with
       | some n => n.id == inst.node.id
       | none => false)
      && !(tx.uiEvent == some ("paste"))
      && !(tx.uiEvent == some ("drop"))
    { inst with isSame := some isSame, position := newPosition }

/-- One entry of the Instance Cache (`NodeViewCacheItem`): an id and the
registered instance. -/
structure NodeViewCacheItem where
  id : Nat
  inst : Instance

/-- The editor-level state the `NodeView` lifecycle touches: the Instance
Cache data, the id counter for new cache entries, the set of instances
subscribed to the `'beforeUpdateState'` event, and two observation counters
for the `mount()` step and the `destroyed()` callback. -/
structure EditorState where
  cacheData : List NodeViewCacheItem
  nextCacheId : Nat
  subs : List Nat
  mounts : Nat
  destroyedCalls : Nat

/-- Modelled from the spec: `NodeViewCache.findNodeAtPosition` (the
`NodeViewCache` implementation is not among the sources under verification).
"returns a previously registered instance iff its stored node reference equals
the given node and its current position equals the given position". -/
def findNodeAtPosition (cache : List NodeViewCacheItem) (node : PMNode)
    (position : Nat) : Option NodeViewCacheItem :=
  cache.find? (fun it => it.inst.node.id == node.id && it.inst.position == position)

/-- Modelled from the spec: `NodeViewCache.remove` — "deregisters; no-op if
already absent (idempotent)". -/
def cacheRemove (cache : List NodeViewCacheItem) (id : Nat) :
    List NodeViewCacheItem :=
  cache.filter (fun it => it.id != id)

/-- Modelled from the spec: `NodeViewCache.add` — "registers a new instance",
returning the fresh cache entry (the handle stored in `this.cache`). -/
def cacheAdd (ed : EditorState) (inst : Instance) : NodeViewCacheItem × EditorState :=
  let item : NodeViewCacheItem := ⟨ed.nextCacheId, inst⟩
  (item, { ed with cacheData := ed.cacheData ++ [item], nextCacheId := ed.nextCacheId + 1 })

/-- The constructor arguments taken from `NodeViewRendererProps`: the bound
node, decorations, the position-resolver closure `getPos` (an opaque handle,
evaluated through `resolve`) and the extension. -/
structure NodeViewRendererProps where
  extension : Nat
  node : PMNode
  decorations : List Nat
  getPos : Nat

/-- The `NodeView` constructor (`NodeView.ts` lines 49–70).  It resolves the
initial position with `getPos`, consults the Instance Cache and, on a hit,
returns the cached instance unchanged (the fields written on `this` belong to
the discarded new object).  On a miss it subscribes `onBeforeUpdateState` to
the editor's `'beforeUpdateState'` event, performs `mount()` and registers the
new instance in the cache.  `resolve` evaluates position-resolver handles;
`instId` is the reference of the newly allocated object. -/
def construct (resolve : Nat → Nat) (component : Nat)
    (props : NodeViewRendererProps) (options : NodeViewRendererOptions)
    (instId : Nat) (ed : EditorState) : Instance × EditorState :=
  let position := resolve props.getPos
  match findNodeAtPosition ed.cacheData props.node position with
  | some item => (item.inst, ed)
  | none =>
    let inst0 : Instance :=
      { instId := instId, component := component, extension := props.extension,
        node := props.node, decorations := props.decorations,
        getPos := props.getPos, isDragging := false, options := options,
        position := position, isSame := none, cache := ed.nextCacheId }
    let ed1 := { ed with subs := ed.subs ++ [instId], mounts := ed.mounts + 1 }
    let added := cacheAdd ed1 inst0
    (inst0, added.2)

/-- Teardown `destroy()` (`NodeView.ts` lines 112–118): if `isSame` is falsy, remove
this instance's cache entry, unsubscribe from `'beforeUpdateState'` and invoke
the `destroyed()` callback; otherwise do nothing. -/
def destroy (inst : Instance) (ed : EditorState) : EditorState :=
  if isSameTruthy inst.isSame then
    ed
  else
    { ed with
      cacheData := cacheRemove ed.cacheData inst.cache,
      subs := ed.subs.filter (fun i => i != inst.instId),
      destroyedCalls := ed.destroyedCalls + 1 }

/-- The DOM facts `stopEvent`, `ignoreMutation` and `onDragStart` consult:
the instance's root element (`this.dom`), its content element
(`this.contentDOM`), element containment (`Element.contains`, which includes
the element itself), content-editability, tag names, and
`closest('[data-drag-handle]')`. -/
structure DomEnv where
  dom : Option Elem
  contentDOM : Option Elem
  contains : Elem → Elem → Bool
  isContentEditable : Elem → Bool
  tagName : Elem → String
  closestDragHandle : Elem → Option Elem

/-- Everything `stopEvent` produces: its boolean return value, the updated
`this.isDragging` flag, whether `event.preventDefault()` was called, and
whether the one-shot `dragend`/`mouseup` disarming listeners were added. -/
structure StopEventResult where
  result : Bool
  isDragging : Bool
  prevented : Bool
  listenersAdded : Bool

/-- Event interception `stopEvent` (`NodeView.ts` lines 173–251), the event mediation policy:
no root element → `false`; a configured override takes full precedence; a
target outside the root or inside `contentDOM` → `false`; a form-control or
content-editable target → `true`; drag suppression and drag-arming for
draggable nodes; finally `false` for copy/paste/cut, while already dragging
(as captured before the arming step), or for a mousedown on a selectable
node, and `true` otherwise. -/
def stopEvent (env : DomEnv) (isEditable : Bool) (inst : Instance) (ev : Event) :
    StopEventResult :=
  match env.dom with
  | none => ⟨false, inst.isDragging, false, false⟩
  | some dom =>
    match inst.options.stopEvent with
    | some f => ⟨f ev, inst.isDragging, false, false⟩
    | none =>
      let target := ev.target
      let isInElement := env.contains dom target
        && !(match env.contentDOM with
             | some c => env.contains c target
             | none => false)
      if !isInElement then
        ⟨false, inst.isDragging, false, false⟩
      else
        let isInput :=
          (["INPUT", "BUTTON", "SELECT", "TEXTAREA"].contains (env.tagName target))
          || env.isContentEditable target
        if isInput then
          ⟨true, inst.isDragging, false, false⟩
        else
          let isDragging := inst.isDragging
          let isDraggable := inst.node.draggable
          let isSelectable := inst.node.selectable
          let isCopyEvent := ev.etype == "copy"
          let isPasteEvent := ev.etype == "paste"
          let isCutEvent := ev.etype == "cut"
          let isClickEvent := ev.etype == "mousedown"
          let isDragEvent := ev.etype.startsWith ("drag") || ev.etype == "drop"
          let prevented0 := !isDraggable && isSelectable && isDragEvent
          if isDraggable && isDragEvent && !isDragging then
            ⟨false, inst.isDragging, true, false⟩
          else
            let arm := isDraggable && isEditable && !isDragging && isClickEvent
              && (match env.closestDragHandle target with
                  | some h => (h == dom) || env.contains dom h
                  | none => false)
            let newDragging := if arm then true else inst.isDragging
            let res := !(isDragging || isCopyEvent || isPasteEvent || isCutEvent
              || (isClickEvent && isSelectable))
            ⟨res, newDragging, prevented0, arm⟩

/-- An observed DOM mutation: its `type` (`'childList'`, `'attributes'`,
`'characterData'` or the synthetic `'selection'`), its target, and the
added/removed nodes of a `childList` mutation. -/
structure Mutation where
  mtype : String
  target : Elem
  addedNodes : List Elem
  removedNodes : List Elem

/-- Mutation filtering `ignoreMutation` (`NodeView.ts` lines 253–298): no root or content
element → `true`; a leaf node → `true`; a selection mutation → `false`; the
iOS `childList` workaround (all changed nodes content-editable, inside the
root) → `false`; an attribute mutation on `contentDOM` itself → `true`; any
mutation inside `contentDOM` → `false`; default `true`. -/
def ignoreMutation (env : DomEnv) (isiOS : Bool) (inst : Instance)
    (mu : Mutation) : Bool :=
  match env.dom, env.contentDOM with
  | some dom, some contentDOM =>
    if inst.node.isLeaf then
      true
    else if mu.mtype == "selection" then
      false
    else if env.contains dom mu.target && mu.mtype == "childList" && isiOS
        && (mu.addedNodes ++ mu.removedNodes).all env.isContentEditable then
      false
    else if contentDOM == mu.target && mu.mtype == "attributes" then
      true
    else if env.contains contentDOM mu.target then
      false
    else
      true
  | _, _ => true

/-- JS object spread `{ ...base, ...patch }` on attribute records, as an
association list: keys of `patch` override keys of `base` (lookup-equivalent
to the JS result; overridden keys are listed with the patch). -/
def objectSpread (base patch : List (String × String)) : List (String × String) :=
  base.filter (fun kv => (patch.lookup kv.1).isNone) ++ patch

/-- The transaction `updateAttributes` dispatches:
`state.tr.setNodeMarkup(pos, undefined, attrs)`. -/
structure SetNodeMarkupTr where
  pos : Nat
  attrs : List (String × String)
deriving DecidableEq, Repr

/-- Attribute update `updateAttributes` (`NodeView.ts` lines 300–313): nothing is dispatched
when the view is not editable; otherwise one transaction is dispatched that
sets the node's markup at `getPos()` to the spread of the node's attributes
with the patch. -/
def updateAttributes (editable : Bool) (resolve : Nat → Nat) (inst : Instance)
    (attributes : List (String × String)) : Option SetNodeMarkupTr :=
  if !editable then
    none
  else
    some ⟨resolve inst.getPos, objectSpread inst.node.attrs attributes⟩

/-! ### Concrete fixtures used by the witnesses -/

/-- A concrete document node. -/
def nodeA : PMNode := ⟨1, [("checked", "true"), ("color", "red")], false, true, true⟩

/-- Options record with no overrides configured (the defaults). -/
def optsNone : NodeViewRendererOptions := ⟨none, none⟩

/-- A concrete instance bound to `nodeA` at position 5. -/
def instA : Instance :=
  { instId := 10, component := 20, extension := 30, node := nodeA,
    decorations := [7], getPos := 40, isDragging := false, options := optsNone,
    position := 5, isSame := none, cache := 0 }

/-- A document-changing transaction with two maps (+2 then +3), not tagged,
whose resulting document has `nodeA` at position 10. -/
def txMove : Transaction :=
  { docChanged := true, maps := [fun p _ => p + 2, fun p _ => p + 3],
    doc := fun p => if p == 10 then some nodeA else none,
    uiEvent := none }

/-- Like `txMove` but tagged `uiEvent: 'paste'` and with the identical node at
every position. -/
def txPaste : Transaction :=
  { docChanged := true, maps := [fun p _ => p + 2, fun p _ => p + 3],
    doc := fun _ => some nodeA,
    uiEvent := some ("paste") }

/-- A transaction whose `docChanged` flag is false. -/
def txNoChange : Transaction :=
  { docChanged := false, maps := [fun p _ => p + 100],
    doc := fun _ => none,
    uiEvent := some ("drop") }

/-- A cached instance bound to `nodeA` at position 5, with every reusable
field different from what the constructor witnesses pass. -/
def instCached : Instance :=
  { instId := 11, component := 21, extension := 31, node := nodeA,
    decorations := [8, 9], getPos := 41, isDragging := false, options := optsNone,
    position := 5, isSame := some true, cache := 3 }

/-- Editor state holding `instCached` in the cache, subscribed and mounted. -/
def edWithCache : EditorState :=
  { cacheData := [⟨3, instCached⟩], nextCacheId := 4, subs := [11], mounts := 1,
    destroyedCalls := 0 }

/-- Editor state with an empty cache. -/
def edEmpty : EditorState :=
  { cacheData := [], nextCacheId := 0, subs := [], mounts := 0, destroyedCalls := 0 }

/-- Renderer props binding `nodeA` with resolver handle 40. -/
def propsA : NodeViewRendererProps := ⟨30, nodeA, [7], 40⟩

/-- Resolver environment: handle 40 currently resolves to position 5. -/
def resolveA : Nat → Nat := fun h => if h == 40 then 5 else 0

/-- An instance whose last classification was `isSame = false`, registered as
cache entry 3 of `edGone`. -/
def instGone : Instance :=
  { instId := 11, component := 21, extension := 31, node := nodeA,
    decorations := [8, 9], getPos := 41, isDragging := false, options := optsNone,
    position := 5, isSame := some false, cache := 3 }

/-- Editor state holding exactly `instGone`. -/
def edGone : EditorState :=
  { cacheData := [⟨3, instGone⟩], nextCacheId := 4, subs := [11], mounts := 1,
    destroyedCalls := 0 }

/-- A concrete DOM: element 0 is the root (`dom`), element 1 the content
element (`contentDOM`, inside the root), element 2 a content-editable element
inside the content element, element 3 a content-editable element inside the
root but outside the content element, element 5 a plain `DIV` inside the root
only; element 4 is outside the root. -/
def env6 : DomEnv :=
  { dom := some 0, contentDOM := some 1,
    contains := fun a b =>
      (a == 0 && (b == 0 || b == 1 || b == 2 || b == 3 || b == 5))
      || (a == 1 && (b == 1 || b == 2)),
    isContentEditable := fun e => e == 2 || e == 3,
    tagName := fun _ => "DIV",
    closestDragHandle := fun _ => none }

/-- Variant of `instA` bound to a leaf node. -/
def instLeaf : Instance := { instA with node := { nodeA with isLeaf := true } }

/-! ### Helper lemmas -/

/-- Helper: on a transaction that did not change the document,
`onBeforeUpdateState` is the identity. -/
theorem onBeforeUpdateState_of_not_docChanged (inst : Instance) (tx : Transaction)
    (h : tx.docChanged = false) : onBeforeUpdateState inst tx = inst := by
  simp [onBeforeUpdateState, h]

/-- Helper: removing a cache id twice removes it once (`List.filter` is
idempotent). -/
theorem cacheRemove_idem (cache : List NodeViewCacheItem) (id : Nat) :
    cacheRemove (cacheRemove cache id) id = cacheRemove cache id := by
  simp [cacheRemove, List.filter_filter]

/-- Helper: no entry with the removed id survives `cacheRemove`. -/
theorem cacheRemove_countP (cache : List NodeViewCacheItem) (id : Nat) :
    (cacheRemove cache id).countP (fun it => it.id == id) = 0 := by
  induction cache with
  | nil => rfl
  | cons a t ih =>
    by_cases h : a.id = id <;>
      simp [cacheRemove, List.filter_cons, h, List.countP_cons] at ih ⊢

/-! ### Claims about the position tracker -/

/-- C1: after `onBeforeUpdateState` processes a document-changing transaction,
the stored `isSame` flag is `true` iff the node found at the remapped position
is reference-identical to the originally bound node AND the transaction's
`uiEvent` metadata is neither `'paste'` nor `'drop'`. -/
theorem isSame_iff_identical_and_not_paste_drop (inst : Instance) (tx : Transaction)
    (h : tx.docChanged = true) :
    (onBeforeUpdateState inst tx).isSame = some true ↔
      ((∃ n, tx.doc (tx.maps.foldl (fun p m => m p (-1)) inst.position) = some n
          ∧ n.id = inst.node.id)
        ∧ tx.uiEvent ≠ some ("paste") ∧ tx.uiEvent ≠ some ("drop")) := by
  simp only [onBeforeUpdateState, h, Bool.not_true, Bool.false_eq_true, if_false]
  cases hd : tx.doc (tx.maps.foldl (fun p m => m p (-1)) inst.position) <;>
    simp [hd, Bool.and_eq_true, and_assoc]

/-- Witness for C1: on `txMove` the identical node is found at the remapped
position and the flag is `true`; on `txPaste` the identical node is found but
the `paste` tag forces the flag away from `true`. -/
theorem isSame_iff_identical_and_not_paste_drop_witness :
    (onBeforeUpdateState instA txMove).isSame = some true ∧
      (onBeforeUpdateState instA txPaste).isSame ≠ some true :=
  ⟨(isSame_iff_identical_and_not_paste_drop instA txMove rfl).mpr
      ⟨⟨nodeA, rfl, rfl⟩, by simp [txMove], by simp [txMove]⟩,
   fun hc =>
     (((isSame_iff_identical_and_not_paste_drop instA txPaste rfl).mp hc).2.1)
       (by simp [txPaste])⟩

/-- C4: for every document-changing transaction, the new stored position is the
left-fold of the transaction's ordered remap functions over the old position,
each applied with bias `-1`, whatever the number of maps. -/
theorem position_eq_foldl_maps (inst : Instance) (tx : Transaction)
    (h : tx.docChanged = true) :
    (onBeforeUpdateState inst tx).position
      = tx.maps.foldl (fun p m => m p (-1)) inst.position := by
  simp [onBeforeUpdateState, h]

/-- Witness for C4: on the two-map transaction `txMove` the stored position 5
is remapped to (5+2)+3 = 10. -/
theorem position_eq_foldl_maps_witness :
    (onBeforeUpdateState instA txMove).position = 10 :=
  (position_eq_foldl_maps instA txMove rfl).trans rfl

/-- C5: a transaction with `docChanged = false` leaves the whole instance
state unchanged (in particular `position` and `isSame`). -/
theorem no_docChange_is_noop (inst : Instance) (tx : Transaction)
    (h : tx.docChanged = false) : onBeforeUpdateState inst tx = inst :=
  onBeforeUpdateState_of_not_docChanged inst tx h

/-- Witness for C5 at a concrete non-document-changing transaction. -/
theorem no_docChange_is_noop_witness :
    onBeforeUpdateState instA txNoChange = instA :=
  no_docChange_is_noop instA txNoChange rfl

/-! ### Claims about construction, reuse and teardown -/

/-- C3: constructing a node view for a (node, position) pair already
registered in the cache returns the existing cached instance and leaves the
editor state untouched — in particular `cacheData` (hence the cache size),
the `'beforeUpdateState'` subscriptions and the mount counter are unchanged. -/
theorem construct_cache_hit_reuses (resolve : Nat → Nat) (component : Nat)
    (props : NodeViewRendererProps) (options : NodeViewRendererOptions)
    (instId : Nat) (ed : EditorState) (item : NodeViewCacheItem)
    (h : findNodeAtPosition ed.cacheData props.node (resolve props.getPos) = some item) :
    construct resolve component props options instId ed = (item.inst, ed) := by
  simp [construct, h]

/-- Witness for C3: a concrete cache hit returns `instCached` and the editor
state `edWithCache` unchanged. -/
theorem construct_cache_hit_reuses_witness :
    construct resolveA 20 propsA optsNone 10 edWithCache = (instCached, edWithCache) :=
  construct_cache_hit_reuses resolveA 20 propsA optsNone 10 edWithCache
    ⟨3, instCached⟩ rfl

/-- C10: on the constructor's reuse path the returned instance keeps every
field of the cached instance — component, node, decorations, position,
options and the position-resolver handle; the arguments of this constructor
invocation are discarded. -/
theorem construct_cache_hit_discards_arguments (resolve : Nat → Nat)
    (component : Nat) (props : NodeViewRendererProps)
    (options : NodeViewRendererOptions) (instId : Nat) (ed : EditorState)
    (item : NodeViewCacheItem)
    (h : findNodeAtPosition ed.cacheData props.node (resolve props.getPos) = some item) :
    (construct resolve component props options instId ed).1.component = item.inst.component
    ∧ (construct resolve component props options instId ed).1.node = item.inst.node
    ∧ (construct resolve component props options instId ed).1.decorations = item.inst.decorations
    ∧ (construct resolve component props options instId ed).1.position = item.inst.position
    ∧ (construct resolve component props options instId ed).1.options = item.inst.options
    ∧ (construct resolve component props options instId ed).1.getPos = item.inst.getPos := by
  simp [construct, h]

/-- Witness for C10: the call passes component 20, decorations `[7]` and
resolver handle 40, yet the reused instance keeps component 21, decorations
`[8, 9]` and resolver handle 41. -/
theorem construct_cache_hit_discards_arguments_witness :
    (construct resolveA 20 propsA optsNone 10 edWithCache).1.component = 21
    ∧ (construct resolveA 20 propsA optsNone 10 edWithCache).1.decorations = [8, 9]
    ∧ (construct resolveA 20 propsA optsNone 10 edWithCache).1.getPos = 41 := by
  have h := construct_cache_hit_discards_arguments resolveA 20 propsA optsNone 10
    edWithCache ⟨3, instCached⟩ rfl
  exact ⟨h.1, h.2.2.1, h.2.2.2.2.2⟩

/-- Counterexample to C2 as stated: `destroy()` has no reentry guard, so with
`isSame = false` a second call runs the teardown branch again — one call
invokes `destroyed()` once, two calls invoke it twice (the claim demands
exactly once even if `destroy()` is called twice). -/
theorem destroy_twice_calls_destroyed_twice :
    (destroy instGone edGone).destroyedCalls = 1
    ∧ (destroy instGone (destroy instGone edGone)).destroyedCalls = 2 := by
  constructor <;> rfl

/-- C2 (amended): when `isSame` is truthy, `destroy()` changes nothing; when
it is falsy, each call removes the instance's cache entry (so the entry is
removed exactly once — the second call removes nothing further) and invokes
the `destroyed()` callback once per call, so two calls invoke it twice. -/
theorem destroy_behavior (inst : Instance) (ed : EditorState) :
    (isSameTruthy inst.isSame = true → destroy inst ed = ed)
    ∧ (isSameTruthy inst.isSame = false →
        (destroy inst ed).cacheData = cacheRemove ed.cacheData inst.cache
        ∧ (destroy inst ed).cacheData.countP (fun it => it.id == inst.cache) = 0
        ∧ (destroy inst ed).destroyedCalls = ed.destroyedCalls + 1
        ∧ (destroy inst (destroy inst ed)).cacheData = (destroy inst ed).cacheData
        ∧ (destroy inst (destroy inst ed)).destroyedCalls = ed.destroyedCalls + 2) := by
  refine ⟨fun h => by simp [destroy, h], fun h => ?_⟩
  refine ⟨by simp [destroy, h], ?_, by simp [destroy, h],
    by simp [destroy, h, cacheRemove_idem], by simp [destroy, h]⟩
  simp [destroy, h, cacheRemove_countP]

/-- Witness for C2 (amended): `instCached` (truthy `isSame`) survives
`destroy()` untouched; `instGone` (falsy `isSame`) is evicted, with the entry
gone after one call and the callback counter at two after two calls. -/
theorem destroy_behavior_witness :
    destroy instCached edWithCache = edWithCache
    ∧ (destroy instGone edGone).cacheData.countP (fun it => it.id == 3) = 0
    ∧ (destroy instGone (destroy instGone edGone)).destroyedCalls = 0 + 2 :=
  ⟨(destroy_behavior instCached edWithCache).1 rfl,
   ((destroy_behavior instGone edGone).2 rfl).2.1,
   ((destroy_behavior instGone edGone).2 rfl).2.2.2.2⟩

/-- Helper: folding `onBeforeUpdateState` over transactions that all have
`docChanged = false` leaves the instance unchanged. -/
theorem foldl_onBeforeUpdateState_no_docChange (inst : Instance)
    (txs : List Transaction) (hall : ∀ tx ∈ txs, tx.docChanged = false) :
    txs.foldl onBeforeUpdateState inst = inst := by
  induction txs generalizing inst with
  | nil => rfl
  | cons t ts ih =>
    rw [List.foldl_cons, onBeforeUpdateState_of_not_docChanged _ _ (hall t (by simp))]
    exact ih inst (fun tx htx => hall tx (by simp [htx]))

/-- C9: a freshly constructed instance (cache-miss path) that has only seen
non-document-changing transactions still has its `isSame` flag unset
(`undefined`, i.e. falsy), so `destroy()` takes the full teardown path: cache
eviction, unsubscription and the `destroyed()` callback. -/
theorem fresh_instance_destroy_full_teardown (resolve : Nat → Nat)
    (component : Nat) (props : NodeViewRendererProps)
    (options : NodeViewRendererOptions) (instId : Nat) (ed : EditorState)
    (h : findNodeAtPosition ed.cacheData props.node (resolve props.getPos) = none)
    (txs : List Transaction) (hall : ∀ tx ∈ txs, tx.docChanged = false) :
    (construct resolve component props options instId ed).1.isSame = none
    ∧ txs.foldl onBeforeUpdateState (construct resolve component props options instId ed).1
        = (construct resolve component props options instId ed).1
    ∧ destroy (construct resolve component props options instId ed).1
          (construct resolve component props options instId ed).2
        = { (construct resolve component props options instId ed).2 with
            cacheData := cacheRemove
              (construct resolve component props options instId ed).2.cacheData
              (construct resolve component props options instId ed).1.cache,
            subs := (construct resolve component props options instId ed).2.subs.filter
              (fun j => j != (construct resolve component props options instId ed).1.instId),
            destroyedCalls :=
              (construct resolve component props options instId ed).2.destroyedCalls + 1 } := by
  have hSame : (construct resolve component props options instId ed).1.isSame = none := by
    simp [construct, h]
  refine ⟨hSame, foldl_onBeforeUpdateState_no_docChange _ txs hall, ?_⟩
  simp [destroy, hSame, isSameTruthy]

/-- Witness for C9: constructed on an empty cache and fed one
non-document-changing transaction, the instance is torn down fully —
`destroyed()` fires. -/
theorem fresh_instance_destroy_full_teardown_witness :
    (destroy (construct resolveA 20 propsA optsNone 10 edEmpty).1
        (construct resolveA 20 propsA optsNone 10 edEmpty).2).destroyedCalls = 1 := by
  have h := fresh_instance_destroy_full_teardown resolveA 20 propsA optsNone 10
    edEmpty rfl [txNoChange] (by intro tx htx; simp at htx; subst htx; rfl)
  rw [h.2.2]
  rfl

/-! ### Claims about event mediation and attribute updates -/

/-- Counterexample to C6 as stated: with no override configured, (i) a
`mousedown` on the content-editable element 2 — a descendant of the root —
returns `false`, because element 2 also lies inside `contentDOM` and the
inside-content test precedes the content-editable test; (ii) a `copy` on the
content-editable element 3 inside the root returns `true`, because the
form-control/content-editable test precedes the copy test. -/
theorem stopEvent_counterexample :
    (stopEvent env6 true instA ⟨"mousedown", 2⟩).result = false
    ∧ (stopEvent env6 true instA ⟨"copy", 3⟩).result = true :=
  ⟨rfl, rfl⟩

/-- C6 (amended): with no override configured, `stopEvent` returns `true` for
a `mousedown` whose target is a content-editable descendant of the root lying
outside the content element; `false` for a `mousedown` whose target is
outside the root; and `false` for a `copy` anywhere inside the root whose
target is neither a form-control element nor content-editable. -/
theorem stopEvent_default_classification (env : DomEnv) (isEditable : Bool)
    (inst : Instance) (d : Elem) (hdom : env.dom = some d)
    (hopt : inst.options.stopEvent = none) :
    (∀ t, env.contains d t = true →
      (match env.contentDOM with
       | some c => env.contains c t
       | none => false) = false →
      env.isContentEditable t = true →
      (stopEvent env isEditable inst ⟨"mousedown", t⟩).result = true)
    ∧ (∀ t, env.contains d t = false →
        (stopEvent env isEditable inst ⟨"mousedown", t⟩).result = false)
    ∧ (∀ t, env.contains d t = true →
        (["INPUT", "BUTTON", "SELECT", "TEXTAREA"].contains (env.tagName t)) = false →
        env.isContentEditable t = false →
        (stopEvent env isEditable inst ⟨"copy", t⟩).result = false) := by
  refine ⟨fun t h1 hcc hce => ?_, fun t h1 => ?_, fun t h1 htag hce => ?_⟩
  · simp [stopEvent, hdom, hopt, h1, hcc, hce]
  · simp [stopEvent, hdom, hopt, h1]
  · cases hcc : (match env.contentDOM with
      | some c => env.contains c t
      | none => false)
    · have htag' : ¬(env.tagName t = "INPUT" ∨ env.tagName t = "BUTTON"
          ∨ env.tagName t = "SELECT" ∨ env.tagName t = "TEXTAREA") := by
        simpa using htag
      simp only [stopEvent, hdom, hopt, h1, hcc]
      simp [htag', hce]
      split <;> rfl
    · simp [stopEvent, hdom, hopt, h1, hcc]

/-- Witness for C6 (amended) on the concrete DOM `env6`: a `mousedown` on
element 3 is kept by the component, a `mousedown` on the outside element 4 is
not, and a `copy` on the plain element 5 is not. -/
theorem stopEvent_default_classification_witness :
    (stopEvent env6 true instA ⟨"mousedown", 3⟩).result = true
    ∧ (stopEvent env6 true instA ⟨"mousedown", 4⟩).result = false
    ∧ (stopEvent env6 true instA ⟨"copy", 5⟩).result = false := by
  have h := stopEvent_default_classification env6 true instA 0 rfl rfl
  exact ⟨h.1 3 rfl rfl rfl, h.2.1 4 rfl, h.2.2 5 rfl rfl rfl⟩

/-- C7: given root and content elements, `ignoreMutation` returns `true` for
every mutation when the bound node is a leaf, and returns `false` for every
selection-type mutation when the bound node is not a leaf. -/
theorem ignoreMutation_leaf_and_selection (env : DomEnv) (isiOS : Bool)
    (inst : Instance) (d c : Elem) (hdom : env.dom = some d)
    (hcont : env.contentDOM = some c) :
    (inst.node.isLeaf = true →
      ∀ mu : Mutation, ignoreMutation env isiOS inst mu = true)
    ∧ (inst.node.isLeaf = false →
        ∀ mu : Mutation, mu.mtype = "selection" →
          ignoreMutation env isiOS inst mu = false) := by
  constructor
  · intro h mu
    simp [ignoreMutation, hdom, hcont, h]
  · intro h mu hmu
    simp [ignoreMutation, hdom, hcont, h, hmu]

/-- Witness for C7: on the leaf instance every mutation type is ignored (an
attribute mutation and a selection mutation shown); on the non-leaf instance
a selection mutation is not ignored. -/
theorem ignoreMutation_leaf_and_selection_witness :
    ignoreMutation env6 false instLeaf ⟨"attributes", 1, [], []⟩ = true
    ∧ ignoreMutation env6 false instLeaf ⟨"selection", 1, [], []⟩ = true
    ∧ ignoreMutation env6 false instA ⟨"selection", 1, [], []⟩ = false := by
  have hleaf := ignoreMutation_leaf_and_selection env6 false instLeaf 0 1 rfl rfl
  have hsel := ignoreMutation_leaf_and_selection env6 false instA 0 1 rfl rfl
  exact ⟨hleaf.1 rfl ⟨"attributes", 1, [], []⟩, hleaf.1 rfl ⟨"selection", 1, [], []⟩,
    hsel.2 rfl ⟨"selection", 1, [], []⟩ rfl⟩

/-- Helper: lookup in the object spread — keys of the patch take precedence,
all other keys fall through to the base record. -/
theorem lookup_objectSpread (base patch : List (String × String)) (k : String) :
    (objectSpread base patch).lookup k = (patch.lookup k <|> base.lookup k) := by
  induction base with
  | nil =>
    cases hp : patch.lookup k <;> simp [objectSpread, hp]
  | cons a t ih =>
    by_cases hk : k = a.1
    · cases hp : patch.lookup a.1 with
      | some v =>
        have hsp : objectSpread (a :: t) patch = objectSpread t patch := by
          simp [objectSpread, List.filter_cons, hp]
        rw [hsp, ih, hk, hp]
        simp
      | none =>
        simp [objectSpread, List.filter_cons, hp, List.lookup, hk]
    · have hbk : (k == a.1) = false := by simp [hk]
      cases hpa : patch.lookup a.1 with
      | some v =>
        simpa [objectSpread, List.filter_cons, hpa, List.lookup, hbk] using ih
      | none =>
        simpa [objectSpread, List.filter_cons, hpa, List.lookup, hbk] using ih

/-- C8: `updateAttributes` dispatches nothing when the view is not editable;
when the view is editable it dispatches exactly one transaction that sets the
node's markup at the resolved current position to the spread of the prior
attributes with the patch, where for every key the patch takes precedence. -/
theorem updateAttributes_patch_merge (resolve : Nat → Nat) (inst : Instance)
    (patch : List (String × String)) :
    updateAttributes false resolve inst patch = none
    ∧ updateAttributes true resolve inst patch
        = some ⟨resolve inst.getPos, objectSpread inst.node.attrs patch⟩
    ∧ ∀ k, (objectSpread inst.node.attrs patch).lookup k
        = (patch.lookup k <|> inst.node.attrs.lookup k) :=
  ⟨rfl, rfl, fun k => lookup_objectSpread inst.node.attrs patch k⟩

end TiptapNodeView
